import Mathlib

/-!
Shallow embedding of the Happy Thoughts backend (src/server.js, final revision,
together with the Mongoose schemas it declares, and src/models/HappyThoughts.js).

The server keeps two MongoDB collections, `users` and `thoughts`.  We model a
collection as a Lean list of records and each Express route handler as a pure
function from the database state (plus the request data it reads) to an
`Except`-style HTTP outcome.  Dates are modelled as natural numbers
(milliseconds since the epoch), MongoDB ObjectIds as natural numbers.
-/

namespace HappyThoughtsApp

/-- A document of the `users` collection, per `userSchema` in src/server.js
(lines 25-39): `username` (unique, required), `password` (required, stored as a
bcrypt hash), `accessToken` (defaulted to 128 random bytes hex-encoded).  The
field `uid` models the MongoDB `_id`. -/
structure User where
  uid : Nat
  username : String
  password : String
  accessToken : String
deriving DecidableEq, Repr

/-- A document of the `thoughts` collection.  Fields per `happyThoughtsSchema`
in src/server.js (lines 17-23): `message` (required), `hearts` (default 0),
`createdAt` (date), `username` (required), `userId` (an ObjectId ref, may be
absent).  The extra field `likedBy` is the array of User refs declared by the
schema in src/models/HappyThoughts.js (lines 25-31); documents handled by
server.js simply leave it empty.  The field `tid` models the MongoDB `_id`. -/
structure Thought where
  tid : Nat
  message : String
  hearts : Nat
  createdAt : Nat
  username : Option String
  userId : Option Nat
  likedBy : List Nat
deriving DecidableEq, Repr

/-- The ownership checks in src/server.js (lines 214 and 244) read the
property `thought.user`.  Neither schema of the repository declares a path
named `user` (both declare `userId`), so on every document this property
access yields `undefined`.  We embed that read faithfully. -/
def Thought.user (_ : Thought) : Option Nat := none

/-- The database state: the two collections. -/
structure DB where
  users : List User
  thoughts : List Thought
deriving DecidableEq, Repr

/-- HTTP outcomes used by the handlers, by status code. -/
inductive Err where
  /-- Status 400 Bad Request -/
  | badRequest
  /-- Status 401 Unauthorized -/
  | unauthorized
  /-- Status 403 Forbidden -/
  | forbidden
  /-- Status 404 Not Found -/
  | notFound
  /-- Status 500 Internal Server Error -/
  | internal
deriving DecidableEq, Repr

/-- JavaScript falsiness of the string-valued request data the handlers test
with `!x`: absent (`undefined`) and the empty string are falsy. -/
def isFalsy : Option String → Bool
  | none => true
  | some s => s = ""

/-- The query `User.findOne({ accessToken })` where `accessToken` is the value
of `req.header("Authorization")` (absent headers give no token; every stored
user has a string `accessToken`, so an absent header matches no user). -/
def findOneByAccessToken (users : List User) (tok : Option String) : Option User :=
  match tok with
  | none => none
  | some t => users.find? (fun u => u.accessToken = t)

/-- The `authenticateUser` middleware, src/server.js lines 43-56: look the
Authorization header value up as an access token; on a match attach the user,
otherwise respond 401. -/
def authenticateUser (users : List User) (authHeader : Option String) : Except Err User :=
  match findOneByAccessToken users authHeader with
  | some u => Except.ok u
  | none => Except.error Err.unauthorized

/-- The query `HappyThoughts.findById(id)` on the thoughts collection. -/
def findThoughtById (thoughts : List Thought) (id : Nat) : Option Thought :=
  thoughts.find? (fun t => t.tid = id)

/-- Mongoose validation run by `document.save()` against `happyThoughtsSchema`
of src/server.js: `message` and `username` are `required` (for a String path,
`required` rejects a missing value and the empty string).  No length bounds
are declared there; the `minlength: 5` / `maxlength: 140` bounds live only in
src/models/HappyThoughts.js, a module that src/server.js never imports. -/
def validThought (t : Thought) : Bool :=
  t.message ≠ "" && t.username.getD "" ≠ ""

/-- Comparator of `.sort({ createdAt: -1 })`: newer first. -/
def createdAtDesc (a b : Thought) : Bool := b.createdAt ≤ a.createdAt

/-- Comparator of `.sort({ hearts: -1 })`: most hearts first. -/
def heartsDesc (a b : Thought) : Bool := b.hearts ≤ a.hearts

/-- The query `HappyThoughts.find().sort({ createdAt: -1 }).limit(20)` of the
GET /thoughts handler. -/
def recentThoughts (db : DB) : List Thought :=
  (db.thoughts.mergeSort createdAtDesc).take 20

/-- GET /thoughts (src/server.js lines 90-103):
`HappyThoughts.find().sort({ createdAt: -1 }).limit(20)`; 200 with the list
when nonempty, otherwise 404. -/
def getThoughts (db : DB) : Except Err (List Thought) :=
  if (recentThoughts db).length > 0 then Except.ok (recentThoughts db)
  else Except.error Err.notFound

/-- The query `HappyThoughts.find().sort({ hearts: -1 })` of the
GET /thoughts/likes handler. -/
def sortedByHearts (db : DB) : List Thought :=
  db.thoughts.mergeSort heartsDesc

/-- GET /thoughts/likes (src/server.js lines 122-133): no authentication;
`HappyThoughts.find().sort({ hearts: -1 })`; 200 with the list when nonempty,
otherwise 404. -/
def getThoughtsLikes (db : DB) : Except Err (List Thought) :=
  if (sortedByHearts db).length > 0 then Except.ok (sortedByHearts db)
  else Except.error Err.notFound

/-- GET /users (src/server.js lines 150-161): no authentication;
`User.find().sort({ createdAt: -1 })` — the user schema has no `createdAt`
path, so all sort keys are equal and the stored order is kept; 200 with the
full user documents when nonempty, otherwise 404. -/
def getUsers (db : DB) : Except Err (List User) :=
  if db.users.length > 0 then Except.ok db.users else Except.error Err.notFound

/-- The body of a request that carries a message, plus its Authorization
header. -/
structure ThoughtReq where
  authorization : Option String
  message : Option String
deriving DecidableEq, Repr

/-- POST /thoughts (src/server.js lines 163-194): authenticate by raw header
lookup (401 on failure); reject a falsy `message` with 400; build
`new HappyThoughts({ message, hearts: 0, createdAt: new Date() })` — note the
handler copies nothing from the authenticated user, so `username` and
`userId` stay unset — then `save()`.  A validation failure of `save`
is caught and answered with 500. -/
def postThoughts (db : DB) (now newId : Nat) (req : ThoughtReq) :
    Except Err (DB × Thought) :=
  match findOneByAccessToken db.users req.authorization with
  | none => Except.error Err.unauthorized
  | some _user =>
    if isFalsy req.message then Except.error Err.badRequest
    else
      let newThought : Thought :=
        { tid := newId, message := req.message.getD "", hearts := 0,
          createdAt := now, username := none, userId := none, likedBy := [] }
      if validThought newThought then
        Except.ok ({ db with thoughts := db.thoughts ++ [newThought] }, newThought)
      else Except.error Err.internal

/-- Replace every thought whose `_id` is `id` by `t`, keeping positions. -/
def replaceThought (db : DB) (id : Nat) (t : Thought) : DB :=
  { db with thoughts := db.thoughts.map (fun s => if s.tid = id then t else s) }

/-- DELETE /thoughts/:id (src/server.js lines 196-225): authenticate by raw
header lookup (401); 404 when the id matches no thought; then the ownership
check `if (thought.user && thought.user.toString() !== user._id.toString())`
— `thought.user` reads a path the schema does not declare (see
`Thought.user`) — would answer 403; finally `findByIdAndDelete` and 200 with
the deleted thought. -/
def deleteThoughtById (db : DB) (id : Nat) (authHeader : Option String) :
    Except Err (DB × Thought) :=
  match findOneByAccessToken db.users authHeader with
  | none => Except.error Err.unauthorized
  | some user =>
    match findThoughtById db.thoughts id with
    | none => Except.error Err.notFound
    | some thought =>
      if (match thought.user with
          | some owner => decide (owner ≠ user.uid)
          | none => false) then
        Except.error Err.forbidden
      else
        Except.ok ({ db with thoughts := db.thoughts.filter (fun t => t.tid ≠ id) }, thought)

/-- PUT /thoughts/:id (src/server.js lines 227-262): authenticate by raw
header lookup (401); 404 when the id matches no thought; the same dead
ownership check as delete (403); falsy `message` answers 400; then
`thought.message = message; thought.save()` — only the message field is
assigned — with a `save` validation failure caught and answered 400. -/
def putThoughtById (db : DB) (id : Nat) (req : ThoughtReq) :
    Except Err (DB × Thought) :=
  match findOneByAccessToken db.users req.authorization with
  | none => Except.error Err.unauthorized
  | some user =>
    match findThoughtById db.thoughts id with
    | none => Except.error Err.notFound
    | some thought =>
      if (match thought.user with
          | some owner => decide (owner ≠ user.uid)
          | none => false) then
        Except.error Err.forbidden
      else if isFalsy req.message then Except.error Err.badRequest
      else
        let updated := { thought with message := req.message.getD "" }
        if validThought updated then
          Except.ok (replaceThought db id updated, updated)
        else Except.error Err.badRequest

/-- The state change a fresh like applies to a thought: append the liker and
increment hearts. -/
def likeUpdate (t : Thought) (callerId : Nat) : Thought :=
  { t with likedBy := t.likedBy ++ [callerId], hearts := t.hearts + 1 }

/-- Modelled from the spec: src/server.js has no like route at all — only the
`likedBy` field declaration exists, in src/models/HappyThoughts.js (lines
25-31).  Per spec section 4.2, Toggle-like (idempotent add): requires an
authenticated caller; 404 when the thought does not exist; a no-op returning
the current state when the caller is already a member of `likedBy`; otherwise
adds the caller to `likedBy`, increments `hearts` by exactly 1 and persists. -/
def toggleLike (db : DB) (id : Nat) (authHeader : Option String) :
    Except Err (DB × Thought) :=
  match authenticateUser db.users authHeader with
  | Except.error e => Except.error e
  | Except.ok user =>
    match findThoughtById db.thoughts id with
    | none => Except.error Err.notFound
    | some thought =>
      if user.uid ∈ thought.likedBy then Except.ok (db, thought)
      else
        Except.ok (replaceThought db id (likeUpdate thought user.uid),
                   likeUpdate thought user.uid)

/-- The heart-count invariant of spec section 3: `hearts == size(likedBy)`. -/
def heartsInv (t : Thought) : Prop := t.hearts = t.likedBy.length

instance (t : Thought) : Decidable (heartsInv t) := by
  unfold heartsInv; infer_instance

/-! Concrete sample data used by witnesses and counterexamples. -/

/-- Sample registered user, owner of the sample thought. -/
def ada : User :=
  { uid := 1, username := "ada", password := "bcrypt-hash-1", accessToken := "token-ada" }

/-- Sample second registered user, not the owner of the sample thought. -/
def bob : User :=
  { uid := 2, username := "bob", password := "bcrypt-hash-2", accessToken := "token-bob" }

/-- Sample thought owned by `ada` (its `userId` records her id). -/
def adaThought : Thought :=
  { tid := 10, message := "hello world", hearts := 0, createdAt := 100,
    username := some "ada", userId := some 1, likedBy := [] }

/-- Sample database: two users, one thought owned by the first user. -/
def exDB : DB := { users := [ada, bob], thoughts := [adaThought] }

/-- Sample update request sent by `ada` for the C9 witness. -/
def updReq : ThoughtReq :=
  { authorization := some "token-ada", message := some "happy again" }

/-- The sample thought after the C9 witness update. -/
def adaThoughtUpd : Thought := { adaThought with message := "happy again" }

/-- The sample database after the C9 witness update. -/
def exDBUpd : DB := { users := [ada, bob], thoughts := [adaThoughtUpd] }

/-! Theorems settling the claims. -/

/-- C10: with at least one user stored, the unauthenticated GET /users
handler returns every stored user document in full — each record still
carrying its `password` hash and its `accessToken` bearer credential, so any
client can read every credential. -/
theorem C10_getUsers_returns_full_documents (db : DB) (h : db.users ≠ []) :
    getUsers db = Except.ok db.users := by
  unfold getUsers
  rw [if_pos]
  exact List.length_pos.mpr h

/-- Witness for C10 at the sample database. -/
theorem C10_witness_concrete : getUsers exDB = Except.ok exDB.users :=
  C10_getUsers_returns_full_documents exDB (by decide)

/-- C8: whenever GET /thoughts answers 200, the returned list has at most 20
thoughts and is sorted by `createdAt` descending (newest first). -/
theorem C8_list_recent_at_most_20_sorted (db : DB) (l : List Thought)
    (h : getThoughts db = Except.ok l) :
    l.length ≤ 20 ∧ l.Pairwise (fun a b => b.createdAt ≤ a.createdAt) := by
  have hl : recentThoughts db = l := by
    unfold getThoughts at h
    split at h
    · injection h
    · exact Except.noConfusion h
  subst hl
  refine ⟨?_, ?_⟩
  · unfold recentThoughts
    simp
  · have hs : (db.thoughts.mergeSort createdAtDesc).Pairwise
        (fun a b => createdAtDesc a b = true) :=
      List.sorted_mergeSort
        (fun a b c hab hbc => by
          simp only [createdAtDesc, decide_eq_true_eq] at *
          omega)
        (fun a b => by
          simp only [createdAtDesc, Bool.or_eq_true, decide_eq_true_eq]
          omega)
        db.thoughts
    have ht := List.Pairwise.sublist (List.take_sublist 20 _) hs
    exact ht.imp (fun hab => by simpa [createdAtDesc] using hab)

/-- Witness for C8 at the sample database. -/
theorem C8_witness_concrete :
    ([adaThought].length ≤ 20) ∧
      ([adaThought].Pairwise (fun a b => b.createdAt ≤ a.createdAt)) :=
  C8_list_recent_at_most_20_sorted exDB [adaThought]
    (by simp [getThoughts, recentThoughts, exDB])

/-- C5, counterexample: GET /thoughts/likes takes no Authorization data at
all — the route installs no authentication — and on the sample database the
unauthenticated request is answered 200 with the full thought list, although
the one returned thought is liked by nobody.  The claim instead demands 401
for unauthenticated calls and a list filtered to the thoughts the caller
liked. -/
theorem C5_counterexample_unauthenticated_gets_all :
    getThoughtsLikes exDB = Except.ok [adaThought] ∧ adaThought.likedBy = [] := by
  constructor
  · simp [getThoughtsLikes, sortedByHearts, exDB]
  · rfl

/-- C5 (amended): GET /thoughts/likes requires no authentication; it answers
404 exactly when the store holds no thoughts, and a 200 answer carries a
permutation of all stored thoughts sorted by `hearts` descending (most liked
first). -/
theorem C5_likes_route_all_thoughts_by_hearts (db : DB) :
    (db.thoughts = [] → getThoughtsLikes db = Except.error Err.notFound) ∧
    (db.thoughts ≠ [] → ∃ l, getThoughtsLikes db = Except.ok l) ∧
    (∀ l, getThoughtsLikes db = Except.ok l →
      l.Perm db.thoughts ∧ l.Pairwise (fun a b => b.hearts ≤ a.hearts)) := by
  refine ⟨?_, ?_, ?_⟩
  · intro hnil
    unfold getThoughtsLikes
    rw [if_neg]
    simp [sortedByHearts, hnil]
  · intro hne
    refine ⟨sortedByHearts db, ?_⟩
    unfold getThoughtsLikes
    rw [if_pos]
    simp only [sortedByHearts, List.length_mergeSort]
    exact List.length_pos.mpr hne
  · intro l hl
    have heq : sortedByHearts db = l := by
      unfold getThoughtsLikes at hl
      split at hl
      · injection hl
      · exact Except.noConfusion hl
    subst heq
    constructor
    · exact List.mergeSort_perm db.thoughts heartsDesc
    · have hs : (db.thoughts.mergeSort heartsDesc).Pairwise
          (fun a b => heartsDesc a b = true) :=
        List.sorted_mergeSort
          (fun a b c hab hbc => by
            simp only [heartsDesc, decide_eq_true_eq] at *
            omega)
          (fun a b => by
            simp only [heartsDesc, Bool.or_eq_true, decide_eq_true_eq]
            omega)
          db.thoughts
      exact hs.imp (fun hab => by simpa [heartsDesc] using hab)

/-- A successful token lookup returns a stored user whose `accessToken` is
exactly the supplied header value. -/
theorem findOneByAccessToken_eq_some (users : List User) (tok : Option String)
    (u : User) (hf : findOneByAccessToken users tok = some u) :
    u ∈ users ∧ tok = some u.accessToken := by
  cases tok with
  | none => exact Option.noConfusion hf
  | some t =>
    unfold findOneByAccessToken at hf
    refine ⟨List.mem_of_find?_eq_some hf, ?_⟩
    have hp := List.find?_some hf
    simp only [decide_eq_true_eq] at hp
    rw [hp]

/-- The token lookup succeeds exactly when some stored user carries the
supplied token. -/
theorem findOneByAccessToken_exists (users : List User) (t : String) :
    (∃ u, findOneByAccessToken users (some t) = some u) ↔
      ∃ u ∈ users, u.accessToken = t := by
  unfold findOneByAccessToken
  rw [← Option.isSome_iff_exists, List.find?_isSome]
  simp

/-- The middleware answers `ok` exactly as the lookup does. -/
theorem authenticateUser_ok_iff (users : List User) (h : Option String)
    (u : User) :
    authenticateUser users h = Except.ok u ↔
      findOneByAccessToken users h = some u := by
  unfold authenticateUser
  cases findOneByAccessToken users h <;> simp

/-- C2, counterexample: `ada` is stored with accessToken `token-ada`, yet the
header `Bearer token-ada` is rejected with 401 — `authenticateUser` compares
the raw header value against stored tokens and strips no scheme marker, so a
`Bearer`-prefixed valid token never authenticates, contrary to the claim. -/
theorem C2_counterexample_bearer_prefix_rejected :
    ada.accessToken = "token-ada" ∧
    authenticateUser [ada] (some ("Bearer " ++ "token-ada")) =
      Except.error Err.unauthorized :=
  ⟨rfl, rfl⟩

/-- C2 (amended): authentication succeeds exactly when the raw Authorization
header value equals the `accessToken` of some stored user — no scheme-marker
prefix is stripped — the resolved user is the one carrying that token, and an
absent header always fails with 401. -/
theorem C2_amended_raw_token_equality (users : List User) (h : Option String) :
    (authenticateUser users none = Except.error Err.unauthorized) ∧
    ((∃ u, authenticateUser users h = Except.ok u) ↔
      ∃ u ∈ users, h = some u.accessToken) ∧
    (∀ u, authenticateUser users h = Except.ok u →
      u ∈ users ∧ h = some u.accessToken) := by
  refine ⟨rfl, ?_, ?_⟩
  · cases h with
    | none =>
      constructor
      · rintro ⟨u, hu⟩
        exact Except.noConfusion hu
      · rintro ⟨u, _, heq⟩
        exact Option.noConfusion heq
    | some t =>
      constructor
      · rintro ⟨u, hu⟩
        have hf := (authenticateUser_ok_iff users (some t) u).mp hu
        obtain ⟨hmem, htok⟩ := findOneByAccessToken_eq_some users (some t) u hf
        exact ⟨u, hmem, htok⟩
      · rintro ⟨u, hmem, heq⟩
        have hex : ∃ v, findOneByAccessToken users (some t) = some v :=
          (findOneByAccessToken_exists users t).mpr
            ⟨u, hmem, by injection heq with heq2; rw [heq2]⟩
        obtain ⟨v, hv⟩ := hex
        exact ⟨v, (authenticateUser_ok_iff users (some t) v).mpr hv⟩
  · intro u hu
    exact findOneByAccessToken_eq_some users h u
      ((authenticateUser_ok_iff users h u).mp hu)

/-- C1 (code bug): in the sample database the thought records owner `ada`
(`userId = some 1`), yet the non-owner `bob` both deletes it and rewrites its
message with 200 responses, because the ownership check reads the property
`user`, which no schema declares (the field is `userId`), so the 403 branch
can never run. -/
theorem C1_nonowner_delete_and_update_succeed :
    adaThought.userId = some ada.uid ∧ bob.uid ≠ ada.uid ∧
    deleteThoughtById exDB 10 (some bob.accessToken) =
      Except.ok ({ users := [ada, bob], thoughts := [] }, adaThought) ∧
    putThoughtById exDB 10
      { authorization := some bob.accessToken, message := some "bob was here" } =
      Except.ok ({ users := [ada, bob],
                   thoughts := [{ adaThought with message := "bob was here" }] },
                 { adaThought with message := "bob was here" }) :=
  ⟨rfl, by decide, rfl, rfl⟩

/-- The POST /thoughts handler can never succeed: the document it builds
leaves `username` unset while `happyThoughtsSchema` declares `username`
required, so `save()` always fails validation and the handler answers 500. -/
theorem postThoughts_never_ok (db : DB) (now newId : Nat) (req : ThoughtReq)
    (p : DB × Thought) : ¬ postThoughts db now newId req = Except.ok p := by
  unfold postThoughts
  cases findOneByAccessToken db.users req.authorization with
  | none => simp
  | some u =>
    by_cases hm : isFalsy req.message = true
    · simp [hm]
    · simp only [hm, Bool.false_eq_true, if_false]
      rw [if_neg]
      · simp
      · simp [validThought]

/-- C3 (code bug): the sample caller authenticates with token `token-ada`
and posts the valid message `hello world`, yet the handler answers 500 and
stores nothing: it never copies `username` or `userId` from the caller, so
the saved document fails the schema requirement on `username`.  The claim
instead promises a persisted thought carrying the caller data. -/
theorem C3_create_fails_and_copies_nothing :
    (findOneByAccessToken exDB.users (some "token-ada")).isSome = true ∧
    postThoughts exDB 200 11
      { authorization := some "token-ada", message := some "hello world" } =
      Except.error Err.internal :=
  ⟨rfl, rfl⟩

/-- C4 (code bug): an absent message is answered 400 as claimed, but the
4-character message `hi` is answered 500, not 400: the active schema of
src/server.js has no length bounds (the [5,140] bounds sit in
src/models/HappyThoughts.js, which server.js never imports), and the save
then dies on the unset required `username`. -/
theorem C4_short_message_answered_500_not_400 :
    postThoughts exDB 200 12
      { authorization := some "token-ada", message := some "hi" } =
      Except.error Err.internal ∧
    postThoughts exDB 200 12
      { authorization := some "token-ada", message := none } =
      Except.error Err.badRequest :=
  ⟨rfl, rfl⟩

/-- A found thought satisfies the lookup predicate: its `_id` is the searched
one. -/
theorem findThoughtById_tid (l : List Thought) (id : Nat) (t : Thought)
    (h : findThoughtById l id = some t) : t.tid = id := by
  have hp := List.find?_some h
  simpa using hp

/-- A found thought is a member of the collection. -/
theorem findThoughtById_mem (l : List Thought) (id : Nat) (t : Thought)
    (h : findThoughtById l id = some t) : t ∈ l :=
  List.mem_of_find?_eq_some h

/-- After replacing every id-matching thought by `b` (with `b` keeping that
id), the lookup finds `b`, provided it found something before. -/
theorem findThoughtById_replace (l : List Thought) (id : Nat) (b : Thought)
    (hb : b.tid = id) (a : Thought) (h : findThoughtById l id = some a) :
    findThoughtById (l.map (fun s => if s.tid = id then b else s)) id = some b := by
  induction l with
  | nil => exact Option.noConfusion h
  | cons x xs ih =>
    by_cases hx : x.tid = id
    · simp [findThoughtById, hx, hb]
    · unfold findThoughtById at h ⊢
      rw [List.find?_cons_of_neg _ (by simp [hx])] at h
      simp only [List.map_cons, if_neg hx]
      rw [List.find?_cons_of_neg _ (by simp [hx])]
      exact ih h

/-- Membership after the pointwise replacement: every member is the
replacement or an old member. -/
theorem mem_replace (l : List Thought) (id : Nat) (b s : Thought)
    (hs : s ∈ l.map (fun t => if t.tid = id then b else t)) :
    s = b ∨ s ∈ l := by
  rcases List.mem_map.mp hs with ⟨x, hx, hfx⟩
  by_cases h : x.tid = id
  · left; rw [← hfx, if_pos h]
  · right; rw [← hfx, if_neg h]; exact hx

/-- Characterization of a successful PUT /thoughts/:id: some thought was
found, the returned thought is that thought with only its message replaced,
and the store holds the pointwise replacement. -/
theorem putThoughtById_ok (db : DB) (id : Nat) (req : ThoughtReq) (db2 : DB)
    (t2 : Thought) (h : putThoughtById db id req = Except.ok (db2, t2)) :
    ∃ t0, findThoughtById db.thoughts id = some t0 ∧
      t2 = { t0 with message := req.message.getD "" } ∧
      db2 = replaceThought db id t2 := by
  unfold putThoughtById at h
  cases hfu : findOneByAccessToken db.users req.authorization with
  | none => rw [hfu] at h; exact Except.noConfusion h
  | some user =>
    rw [hfu] at h
    cases hft : findThoughtById db.thoughts id with
    | none => rw [hft] at h; exact Except.noConfusion h
    | some t0 =>
      rw [hft] at h
      simp only [Thought.user, Bool.false_eq_true, if_false] at h
      by_cases hm : isFalsy req.message = true
      · rw [if_pos hm] at h; exact Except.noConfusion h
      · rw [if_neg hm] at h
        by_cases hv : validThought { t0 with message := req.message.getD "" } = true
        · rw [if_pos hv] at h
          injection h with h2
          rw [Prod.mk.injEq] at h2
          exact ⟨t0, rfl, h2.2.symm, by rw [← h2.1, ← h2.2]⟩
        · rw [if_neg hv] at h; exact Except.noConfusion h

/-- Characterization of a successful DELETE /thoughts/:id: the deleted
thought was found, the store keeps exactly the thoughts with another id, and
the users are untouched. -/
theorem deleteThoughtById_ok (db : DB) (id : Nat) (a : Option String)
    (db2 : DB) (t2 : Thought)
    (h : deleteThoughtById db id a = Except.ok (db2, t2)) :
    findThoughtById db.thoughts id = some t2 ∧
      db2 = { db with thoughts := db.thoughts.filter (fun t => t.tid ≠ id) } := by
  unfold deleteThoughtById at h
  cases hfu : findOneByAccessToken db.users a with
  | none => rw [hfu] at h; exact Except.noConfusion h
  | some user =>
    rw [hfu] at h
    cases hft : findThoughtById db.thoughts id with
    | none => rw [hft] at h; exact Except.noConfusion h
    | some t0 =>
      rw [hft] at h
      simp only [Thought.user, Bool.false_eq_true, if_false] at h
      injection h with h2
      rw [Prod.mk.injEq] at h2
      exact ⟨by rw [h2.2], h2.1.symm⟩

/-- Reduction of `toggleLike` once the caller and the thought are resolved. -/
theorem toggleLike_resolved (db : DB) (id : Nat) (a : Option String)
    (user : User) (t0 : Thought)
    (hu : authenticateUser db.users a = Except.ok user)
    (ht : findThoughtById db.thoughts id = some t0) :
    toggleLike db id a =
      (if user.uid ∈ t0.likedBy then Except.ok (db, t0)
       else Except.ok (replaceThought db id (likeUpdate t0 user.uid),
                       likeUpdate t0 user.uid)) := by
  unfold toggleLike
  rw [hu, ht]

/-- C6 (spec-modelled toggle-like): resolved on a caller and a thought, the
like is an idempotent add: a caller already in `likedBy` gets the unchanged
state back; a fresh caller is appended to `likedBy` with `hearts` incremented
by exactly one; and repeating the call leaves the state of the first call
unchanged. -/
theorem C6_toggleLike_idempotent_add (db : DB) (id : Nat) (a : Option String)
    (user : User) (t0 : Thought)
    (hu : authenticateUser db.users a = Except.ok user)
    (ht : findThoughtById db.thoughts id = some t0) :
    (user.uid ∈ t0.likedBy → toggleLike db id a = Except.ok (db, t0)) ∧
    (user.uid ∉ t0.likedBy →
        toggleLike db id a =
          Except.ok (replaceThought db id (likeUpdate t0 user.uid),
                     likeUpdate t0 user.uid) ∧
        (likeUpdate t0 user.uid).hearts = t0.hearts + 1 ∧
        (likeUpdate t0 user.uid).likedBy = t0.likedBy ++ [user.uid]) ∧
    (∀ db2 t2, toggleLike db id a = Except.ok (db2, t2) →
        toggleLike db2 id a = Except.ok (db2, t2)) := by
  have e1 := toggleLike_resolved db id a user t0 hu ht
  refine ⟨?_, ?_, ?_⟩
  · intro hm
    rw [e1, if_pos hm]
  · intro hm
    exact ⟨by rw [e1, if_neg hm], rfl, rfl⟩
  · intro db2 t2 h2
    by_cases hm : user.uid ∈ t0.likedBy
    · rw [e1, if_pos hm] at h2
      injection h2 with h3
      rw [Prod.mk.injEq] at h3
      rw [← h3.1, ← h3.2, e1, if_pos hm]
    · rw [e1, if_neg hm] at h2
      injection h2 with h3
      rw [Prod.mk.injEq] at h3
      have htid : (likeUpdate t0 user.uid).tid = id :=
        findThoughtById_tid db.thoughts id t0 ht
      have hu2 : authenticateUser db2.users a = Except.ok user := by
        rw [← h3.1]; exact hu
      have ht2 : findThoughtById db2.thoughts id =
          some (likeUpdate t0 user.uid) := by
        rw [← h3.1]
        exact findThoughtById_replace db.thoughts id (likeUpdate t0 user.uid)
          htid t0 ht
      have e2 := toggleLike_resolved db2 id a user (likeUpdate t0 user.uid)
        hu2 ht2
      have hmem : user.uid ∈ (likeUpdate t0 user.uid).likedBy := by
        simp [likeUpdate]
      rw [e2, if_pos hmem, ← h3.1, ← h3.2]

/-- Witness for C6: `bob` likes the sample thought. -/
theorem C6_witness_concrete :
    (bob.uid ∈ adaThought.likedBy →
        toggleLike exDB 10 (some "token-bob") = Except.ok (exDB, adaThought)) ∧
    (bob.uid ∉ adaThought.likedBy →
        toggleLike exDB 10 (some "token-bob") =
          Except.ok (replaceThought exDB 10 (likeUpdate adaThought bob.uid),
                     likeUpdate adaThought bob.uid) ∧
        (likeUpdate adaThought bob.uid).hearts = adaThought.hearts + 1 ∧
        (likeUpdate adaThought bob.uid).likedBy = adaThought.likedBy ++ [bob.uid]) ∧
    (∀ db2 t2, toggleLike exDB 10 (some "token-bob") = Except.ok (db2, t2) →
        toggleLike db2 10 (some "token-bob") = Except.ok (db2, t2)) :=
  C6_toggleLike_idempotent_add exDB 10 (some "token-bob") bob adaThought
    rfl rfl

/-- C7: on a store in which every thought satisfies `hearts = |likedBy|`,
each mutating operation in scope — create, update message, delete,
(spec-modelled) toggle-like — leaves every stored thought satisfying
`hearts = |likedBy|`. -/
theorem C7_hearts_eq_likedBy_after_mutations (db : DB)
    (hinv : ∀ t ∈ db.thoughts, heartsInv t) :
    (∀ now newId req db2 t, postThoughts db now newId req = Except.ok (db2, t) →
        ∀ s ∈ db2.thoughts, heartsInv s) ∧
    (∀ id req db2 t, putThoughtById db id req = Except.ok (db2, t) →
        ∀ s ∈ db2.thoughts, heartsInv s) ∧
    (∀ id a db2 t, deleteThoughtById db id a = Except.ok (db2, t) →
        ∀ s ∈ db2.thoughts, heartsInv s) ∧
    (∀ id a db2 t, toggleLike db id a = Except.ok (db2, t) →
        ∀ s ∈ db2.thoughts, heartsInv s) := by
  refine ⟨?_, ?_, ?_, ?_⟩
  · intro now newId req db2 t h
    exact absurd h (postThoughts_never_ok db now newId req (db2, t))
  · intro id req db2 t h s hs
    obtain ⟨t0, hft, ht2, hdb2⟩ := putThoughtById_ok db id req db2 t h
    rw [hdb2] at hs
    rcases mem_replace db.thoughts id t s hs with hb | hold
    · rw [hb, ht2]
      have := hinv t0 (findThoughtById_mem db.thoughts id t0 hft)
      simpa [heartsInv] using this
    · exact hinv s hold
  · intro id a db2 t h s hs
    obtain ⟨hft, hdb2⟩ := deleteThoughtById_ok db id a db2 t h
    rw [hdb2] at hs
    exact hinv s (List.mem_of_mem_filter hs)
  · intro id a db2 t h s hs
    cases hau : authenticateUser db.users a with
    | error e =>
      unfold toggleLike at h
      rw [hau] at h
      exact Except.noConfusion h
    | ok user =>
      cases hft : findThoughtById db.thoughts id with
      | none =>
        unfold toggleLike at h
        rw [hau, hft] at h
        exact Except.noConfusion h
      | some t0 =>
        rw [toggleLike_resolved db id a user t0 hau hft] at h
        by_cases hm : user.uid ∈ t0.likedBy
        · rw [if_pos hm] at h
          injection h with h2
          rw [Prod.mk.injEq] at h2
          rw [← h2.1] at hs
          exact hinv s hs
        · rw [if_neg hm] at h
          injection h with h2
          rw [Prod.mk.injEq] at h2
          rw [← h2.1] at hs
          rcases mem_replace db.thoughts id (likeUpdate t0 user.uid) s hs with
            hb | hold
          · have h0 := hinv t0 (findThoughtById_mem db.thoughts id t0 hft)
            rw [hb]
            simp [likeUpdate, heartsInv] at h0 ⊢
            omega
          · exact hinv s hold

/-- Witness for C7 at the sample database. -/
theorem C7_witness_concrete :
    (∀ now newId req db2 t, postThoughts exDB now newId req = Except.ok (db2, t) →
        ∀ s ∈ db2.thoughts, heartsInv s) ∧
    (∀ id req db2 t, putThoughtById exDB id req = Except.ok (db2, t) →
        ∀ s ∈ db2.thoughts, heartsInv s) ∧
    (∀ id a db2 t, deleteThoughtById exDB id a = Except.ok (db2, t) →
        ∀ s ∈ db2.thoughts, heartsInv s) ∧
    (∀ id a db2 t, toggleLike exDB id a = Except.ok (db2, t) →
        ∀ s ∈ db2.thoughts, heartsInv s) :=
  C7_hearts_eq_likedBy_after_mutations exDB (by decide)

/-- C9: a successful message update changes only the message: the returned
thought keeps the identity, hearts, createdAt, username, userId and likedBy
of the stored thought, the users are untouched, and the store changes only at
the updated id. -/
theorem C9_update_message_frame (db : DB) (id : Nat) (req : ThoughtReq)
    (db2 : DB) (t2 : Thought)
    (h : putThoughtById db id req = Except.ok (db2, t2)) :
    ∃ t0, findThoughtById db.thoughts id = some t0 ∧
      t2.message = req.message.getD "" ∧
      t2.tid = t0.tid ∧ t2.hearts = t0.hearts ∧ t2.createdAt = t0.createdAt ∧
      t2.username = t0.username ∧ t2.userId = t0.userId ∧
      t2.likedBy = t0.likedBy ∧
      db2.users = db.users ∧
      db2.thoughts = db.thoughts.map (fun s => if s.tid = id then t2 else s) := by
  obtain ⟨t0, hft, ht2, hdb2⟩ := putThoughtById_ok db id req db2 t2 h
  subst ht2
  subst hdb2
  exact ⟨t0, hft, rfl, rfl, rfl, rfl, rfl, rfl, rfl, rfl, rfl⟩

/-- Witness for C9: `ada` updates the message of the sample thought. -/
theorem C9_witness_concrete :
    ∃ t0, findThoughtById exDB.thoughts 10 = some t0 ∧
      adaThoughtUpd.message = updReq.message.getD "" ∧
      adaThoughtUpd.tid = t0.tid ∧ adaThoughtUpd.hearts = t0.hearts ∧
      adaThoughtUpd.createdAt = t0.createdAt ∧
      adaThoughtUpd.username = t0.username ∧
      adaThoughtUpd.userId = t0.userId ∧
      adaThoughtUpd.likedBy = t0.likedBy ∧
      exDBUpd.users = exDB.users ∧
      exDBUpd.thoughts =
        exDB.thoughts.map (fun s => if s.tid = 10 then adaThoughtUpd else s) :=
  C9_update_message_frame exDB 10 updReq exDBUpd adaThoughtUpd rfl

end HappyThoughtsApp
